import Mathlib

/-!
Shallow embedding of the GRASS addon script r3.slice (src/r3.slice.py) and
verification of its specification claims.

Modelling conventions:
* Python floats are idealised as rationals.  The values the script handles
  come from textual sources (option strings and g.region output), so their
  user visible decimal rendering coincides with the rational one; the helper
  pyFloatStr renders a rational the way Python prints a float (an integral
  value prints as "n.0", a terminating decimal prints its digits).  Binary
  rounding artefacts and exponent notation are outside the model.
* External commands are not executed.  Every gcore.run_command,
  read_command and write_command call of the script is recorded as a Cmd
  value (program name, option list, optional stdin payload), and the outputs
  the script reads back (the g.list map list, the region metadata, the
  r.profile output of each map) are parameters of the embedding.  The
  r.profile output is supplied already split into lines and whitespace
  tokens, mirroring .strip().split(os.linesep) and line.split().
  The g.region call hidden inside gcore.region is represented by the reg
  parameter and is not a traced Cmd.
* Python exceptions and gcore.fatal are modelled with Except PyError:
  list indexing uses pyGet (IndexError), float parsing uses pyFloat
  (ValueError), gcore.fatal is PyError.fatal with its message.
-/

namespace R3Slice

/-- Ways the script can abort: an uncaught IndexError, an uncaught
ValueError from float(), or a gcore.fatal call (message to stderr and
non-zero exit). -/
inductive PyError where
  | indexError : PyError
  | valueError : PyError
  | fatal : String → PyError
deriving DecidableEq, Repr

/-- One recorded external command invocation: program name, option
key/value pairs in source order, and the stdin payload for write_command
calls. -/
structure Cmd where
  prog : String
  args : List (String × String)
  stdin : Option String
deriving DecidableEq, Repr

/-- The fields of the 3D region metadata (gcore.region(region3d=True))
that the script reads: horizontal resolutions, vertical resolution, top and
bottom.  All are parsed from g.region output as Python floats. -/
structure Region where
  ewres : ℚ
  nsres : ℚ
  tbres : ℚ
  t : ℚ
  b : ℚ
deriving DecidableEq, Repr

/-- The grid extent (n, s, e, w) the script computes for the output
raster. -/
structure Extent where
  n : ℚ
  s : ℚ
  e : ℚ
  w : ℚ
deriving DecidableEq, Repr

/-- The CLI options of the script as delivered by the GRASS parser: every
option is a string, a missing optional option is the empty string. -/
structure Options where
  input : String
  output : String
  axes : String
  slice_line : String
  units : String
  coordinates : String
  offset : String
deriving DecidableEq, Repr

/-- Python list indexing l[i]: the element, or an uncaught IndexError. -/
def pyGet {α : Type} (l : List α) (i : ℕ) : Except PyError α :=
  match l.get? i with
  | some a => Except.ok a
  | none => Except.error PyError.indexError

/-- Evaluate f on every element, short-circuiting on the first error
(a Python list comprehension or map() whose body can raise). -/
def mapE {α β : Type} (f : α → Except PyError β) : List α → Except PyError (List β)
  | [] => Except.ok []
  | a :: as => do
      let b ← f a
      let bs ← mapE f as
      Except.ok (b :: bs)

/-- Digit characters to the natural number they denote. -/
def digitsToNat (cs : List Char) : ℕ :=
  cs.foldl (fun a c => a * 10 + (c.toNat - 48)) 0

/-- Python int() truncation toward zero of a float value, computed on the
numerator and denominator. -/
def pyTrunc (q : ℚ) : ℤ :=
  if q.num < 0 then -((-q.num).fdiv (q.den : ℤ)) else q.num.fdiv (q.den : ℤ)

/-- Decimal digits of the fractional value n / d in [0, 1), fuel bounded.
For the terminating decimals the claims exercise the fuel is never
exhausted. -/
def fracDigits : ℕ → ℤ → ℤ → String
  | 0, _, _ => ""
  | fuel + 1, n, d =>
      if n = 0 then ""
      else
        let digit := (n * 10).fdiv d
        toString digit ++ fracDigits fuel (n * 10 - digit * d) d

/-- Rendering of the non-negative float value n / d the way Python
str()/format prints it: integral values as "n.0", terminating decimals
digit by digit. -/
def pyFloatStrNN (n d : ℤ) : String :=
  let ip := n.fdiv d
  let fn := n - ip * d
  if fn = 0 then toString ip ++ ".0" else toString ip ++ "." ++ fracDigits 40 fn d

/-- Rendering of a float value the way Python str()/format prints it. -/
def pyFloatStr (q : ℚ) : String :=
  if q.num < 0 then "-" ++ pyFloatStrNN (-q.num) (q.den : ℤ)
  else pyFloatStrNN q.num (q.den : ℤ)

/-- Python str.strip(',') : remove leading and trailing commas. -/
def pyStripComma (s : String) : String :=
  String.mk (((s.toList.dropWhile (fun c => c == ',')).reverse.dropWhile
    (fun c => c == ',')).reverse)

/-- Python str.split(sep) for a one character separator: split at every
occurrence, keeping empty pieces ("a,,b" gives three pieces, "" gives one
empty piece). -/
def pySplitAux (sep : Char) : List Char → List Char → List String
  | [], acc => [String.mk acc.reverse]
  | c :: cs, acc =>
      if c == sep then String.mk acc.reverse :: pySplitAux sep cs []
      else pySplitAux sep cs (c :: acc)

/-- Python s.split(sep). -/
def pySplit (s : String) (sep : Char) : List String :=
  pySplitAux sep s.toList []

/-- Python float() on the decimal literals the script meets: optional
sign, digits, optional fraction ("1", "-2.5", ".5", "5." all parse).
Exponent forms, inf/nan and surrounding whitespace are outside the model;
anything else is a ValueError. -/
def pyFloatCore (cs : List Char) : Option ℚ :=
  let sr : ℚ × List Char :=
    match cs with
    | '-' :: r => (-1, r)
    | '+' :: r => (1, r)
    | _ => (1, cs)
  let ip := sr.2.takeWhile Char.isDigit
  let rest := sr.2.dropWhile Char.isDigit
  match rest with
  | [] => if ip.isEmpty then none else some (sr.1 * (digitsToNat ip : ℚ))
  | '.' :: fr =>
      if fr.all Char.isDigit && (!ip.isEmpty || !fr.isEmpty) then
        some (sr.1 * ((digitsToNat ip : ℚ) + (digitsToNat fr : ℚ) / (10 : ℚ) ^ fr.length))
      else none
  | _ => none

/-- Python float(s), raising ValueError on failure. -/
def pyFloat (s : String) : Except PyError ℚ :=
  match pyFloatCore s.toList with
  | some q => Except.ok q
  | none => Except.error PyError.valueError

/-- Python list slicing l[0::2] (every second element starting at 0). -/
def everyOther {α : Type} : List α → List α
  | [] => []
  | [a] => [a]
  | a :: _ :: rest => a :: everyOther rest

/-- The module level temporary name pattern stem:
PREFIX = 'r3_to_rast_tmp_' + str(os.getpid()). -/
def PREFIX (pid : ℕ) : String :=
  "r3_to_rast_tmp_" ++ toString pid

/-- The identical stem main recomputes locally:
prefix = 'r3_to_rast_tmp_' + str(os.getpid()). -/
def mainPREFIX (pid : ℕ) : String :=
  "r3_to_rast_tmp_" ++ toString pid

/-- A raster name matches a trailing star glob pattern exactly when the
pattern stem is a prefix of the name (checked structurally on the
characters). -/
def startsWith (stem name : String) : Bool :=
  stem.toList.isPrefixOf name.toList

/-- The exit hook cleanup(): g.remove -f pattern=PREFIX* type=raster. -/
def cleanupCmd (pid : ℕ) : Cmd :=
  ⟨"g.remove", [("flags", "f"), ("pattern", PREFIX pid ++ "*"), ("type", "raster")], none⟩

/-- The layer listing g.list type=raster pattern=PREFIX*. -/
def glistCmd (pid : ℕ) : Cmd :=
  ⟨"g.list", [("type", "raster"), ("pattern", PREFIX pid ++ "*")], none⟩

/-- res = (region['ewres'] + region['nsres']) / 2. -/
def regionRes (reg : Region) : ℚ :=
  (reg.ewres + reg.nsres) / 2

/-- The base grid extent: s = w = 0, e = cols * res,
n = rows * region['tbres']. -/
def baseExtent (cols rows : ℕ) (reg : Region) : Extent :=
  ⟨(rows : ℚ) * reg.tbres, 0, (cols : ℚ) * regionRes reg, 0⟩

/-- The offset block: offset[0] = w + (e - w) * fx, offset[1] = (n - s) * fy,
then e += offset[0]; w += offset[0]; n += offset[1]; s += offset[1]. -/
def applyOffset (ext : Extent) (fx fy : ℚ) : Extent :=
  let dx := ext.w + (ext.e - ext.w) * fx
  let dy := (ext.n - ext.s) * fy
  ⟨ext.n + dy, ext.s + dy, ext.e + dx, ext.w + dx⟩

/-- Offset is optional; when given, the two fractions are read with list
indexing (an offset list that is too short raises IndexError). -/
def applyOffsetOpt (ext : Extent) : Option (List ℚ) → Except PyError Extent
  | none => Except.ok ext
  | some off => do
      let fx ← pyGet off 0
      let fy ← pyGet off 1
      Except.ok (applyOffset ext fx fy)

/-- Lines 73-74: if coordinates[0][0] > coordinates[1][0] the pair is
swapped, otherwise the list is left as it is. -/
def normalizeCoordinates (cs : List (ℚ × ℚ)) : Except PyError (List (ℚ × ℚ)) := do
  let c0 ← pyGet cs 0
  let c1 ← pyGet cs 1
  Except.ok (if c0.1 > c1.1 then [c1, c0] else cs)

/-- gcore serialises a list of coordinate pairs as the flat comma join of
the rendered numbers. -/
def coordsArg (coords : List (ℚ × ℚ)) : String :=
  String.intercalate "," ((coords.map (fun p => [pyFloatStr p.1, pyFloatStr p.2])).flatten)

/-- One r.profile invocation: coordinates=..., input=map, output='-'
(plus quiet=True inside the per-layer loop).  No resolution option is
passed. -/
def rprofileCmd (coords : List (ℚ × ℚ)) (m : String) (quiet : Bool) : Cmd :=
  ⟨"r.profile",
    [("coordinates", coordsArg coords), ("input", m), ("output", "-")] ++
      (if quiet then [("quiet", "True")] else []),
    none⟩

/-- line.split()[1] for every line of one r.profile output: the sampled
value tokens of one payload row. -/
def profileTokens (profile : List (List String)) : Except PyError (List String) :=
  mapE (fun line => pyGet line 1) profile

/-- The value rows of the ASCII payload, one per map, built from the last
listed map to the first (for map_ in reversed(maps)). -/
def payloadTokenRows (maps : List String) (profileOf : String → List (List String)) :
    Except PyError (List (List String)) :=
  mapE (fun m => profileTokens (profileOf m)) maps.reverse

/-- The six line ASCII header.  (In Python the pre-offset south and west
are the int 0 and would print "0"; the model renders every bound with the
float rendering.  No claim depends on the header text.) -/
def asciiHeader (ext : Extent) (rows cols : ℕ) : String :=
  "north: " ++ pyFloatStr ext.n ++ "\nsouth: " ++ pyFloatStr ext.s ++
    "\neast: " ++ pyFloatStr ext.e ++ "\nwest: " ++ pyFloatStr ext.w ++
    "\nrows: " ++ toString rows ++ "\ncols: " ++ toString cols ++ "\n"

/-- '{x} {y}'.format(...) for one coordinate pair. -/
def fmtPoint (p : ℚ × ℚ) : String :=
  pyFloatStr p.1 ++ " " ++ pyFloatStr p.2

/-- The v.in.ascii standard format payload of the slice line: a single
two vertex line with the single category 1. -/
def sliceLinePayload (p0 p1 : ℚ × ℚ) : String :=
  "L 2 1\n" ++ fmtPoint p0 ++ "\n" ++ fmtPoint p1 ++ "\n1 1"

/-- Lines 101-108: when a slice_line output name is given, emit the slice
line vector from the coordinate pair the script holds at that point. -/
def sliceBlock (coords : List (ℚ × ℚ)) (slice_line : String) : Except PyError (List Cmd) :=
  if slice_line = "" then Except.ok []
  else do
    let p0 ← pyGet coords 0
    let p1 ← pyGet coords 1
    Except.ok [⟨"v.in.ascii",
      [("format", "standard"), ("input", "-"), ("flags", "n"), ("output", slice_line)],
      some (sliceLinePayload p0 p1)⟩]

/-- Lines 111-132: the axes frame payload (one line above the grid, one to
its right, with endpoint markers). -/
def axesPayload (n s e w : ℚ) : String :=
  let topY := n + (1 / 10 : ℚ) * (n - s)
  let rightX := e + (5 / 100 : ℚ) * (e - w)
  String.intercalate "\n"
    [ "L 2 1",
      pyFloatStr w ++ " " ++ pyFloatStr topY,
      pyFloatStr e ++ " " ++ pyFloatStr topY,
      "1 1",
      "P 1 1",
      pyFloatStr w ++ " " ++ pyFloatStr topY,
      "2 1",
      "P 1 1",
      pyFloatStr e ++ " " ++ pyFloatStr topY,
      "2 2",
      "L 2 1",
      pyFloatStr rightX ++ " " ++ pyFloatStr n,
      pyFloatStr rightX ++ " " ++ pyFloatStr s,
      "2 3",
      "P 1 1",
      pyFloatStr rightX ++ " " ++ pyFloatStr n,
      "1 2",
      "P 1 1",
      pyFloatStr rightX ++ " " ++ pyFloatStr s,
      "1 3" ]

/-- Lines 141-145: the three SQL updates.  Only the horizontal length goes
through int(); top and bottom are the region floats, rendered as Python
renders floats. -/
def axesSql (axesName : String) (e w t b : ℚ) (u1 u2 : String) : String :=
  "UPDATE " ++ axesName ++ " SET label = \"" ++ toString (pyTrunc (e - w)) ++ " " ++ u1 ++
    "\" WHERE cat = 1;\n" ++
  "UPDATE " ++ axesName ++ " SET label = \"" ++ pyFloatStr t ++ " " ++ u2 ++
    "\" WHERE cat = 2;\n" ++
  "UPDATE " ++ axesName ++ " SET label = \"" ++ pyFloatStr b ++ " " ++ u2 ++
    "\" WHERE cat = 3;\n"

/-- Lines 110-146: when an axes output name is given, emit the frame
vector, split the units option (an empty option gives two empty strings, a
non-empty one is split on commas and indexed with units[0] and units[1],
which raises IndexError when fewer than two parts exist), create the label
table and execute the SQL. -/
def axesBlock (axesName : String) (ext : Extent) (t b : ℚ) (units : String) :
    Except PyError (List Cmd) :=
  if axesName = "" then Except.ok []
  else
    let c1 : Cmd := ⟨"v.in.ascii",
      [("format", "standard"), ("input", "-"), ("flags", "n"), ("output", axesName)],
      some (axesPayload ext.n ext.s ext.e ext.w)⟩
    let parts := if units = "" then ["", ""] else pySplit units ','
    let c2 : Cmd := ⟨"v.db.addtable",
      [("map", axesName), ("layer", "1"), ("columns", "label varchar(50)")], none⟩
    do
      let u1 ← pyGet parts 0
      let u2 ← pyGet parts 1
      Except.ok [c1, c2,
        ⟨"db.execute", [("input", "-")], some (axesSql axesName ext.e ext.w t b u1 u2)⟩]

/-- The unconditional command sequence of main: flatten the volume, list
the layers, profile the first map, profile every map in reversed listing
order, import the assembled grid, copy the colour table. -/
def pipelineCmds (pid : ℕ) (input_ output : String) (coords : List (ℚ × ℚ))
    (maps : List String) (m0 : String) (payload : String) : List Cmd :=
  [⟨"r3.to.rast", [("input", input_), ("output", mainPREFIX pid)], none⟩,
   glistCmd pid,
   rprofileCmd coords m0 false] ++
  maps.reverse.map (fun m => rprofileCmd coords m true) ++
  [⟨"r.in.ascii", [("input", "-"), ("output", output), ("type", "FCELL")], some payload⟩,
   ⟨"r.colors", [("map", output), ("raster_3d", input_)], none⟩]

/-- The body of main (lines 67-146).  maps is the g.list reply, reg the
region metadata, profileOf the r.profile reply per map.  The result is the
trace of external invocations, or the Python error that aborts the run. -/
def main (pid : ℕ) (input_ : String) (coordinates : List (ℚ × ℚ))
    (output axesName slice_line units : String) (offset : Option (List ℚ))
    (maps : List String) (reg : Region)
    (profileOf : String → List (List String)) : Except PyError (List Cmd) := do
  let coords ← normalizeCoordinates coordinates
  let m0 ← pyGet maps 0
  let ext ← applyOffsetOpt (baseExtent (profileOf m0).length maps.length reg) offset
  let trows ← payloadTokenRows maps profileOf
  let payload := String.intercalate "\n"
    (asciiHeader ext maps.length (profileOf m0).length ::
      trows.map (fun r => String.intercalate " " r))
  let sc ← sliceBlock coords slice_line
  let ac ← axesBlock axesName ext reg.t reg.b units
  Except.ok (pipelineCmds pid input_ output coords maps m0 payload ++ sc ++ ac)

/-- The __main__ driver (lines 148-161): strip and split the coordinates
option, fatal unless exactly 4 components, parse the x and y components,
zip them into pairs, parse the optional offset percentages into fractions,
then run main.  (The option parsing call and the atexit registration
precede this and involve no pipeline command.) -/
def driver (pid : ℕ) (opts : Options) (maps : List String) (reg : Region)
    (profileOf : String → List (List String)) : Except PyError (List Cmd) :=
  let comps := pySplit (pyStripComma opts.coordinates) ','
  if comps.length ≠ 4 then Except.error (PyError.fatal "Please provide 2 coordinates.")
  else do
    let xs ← mapE pyFloat (everyOther comps)
    let ys ← mapE pyFloat (everyOther comps.tail)
    let offset ←
      match opts.offset with
      | "" => Except.ok none
      | o => do
          let fs ← mapE (fun s => do
            let q ← pyFloat s
            Except.ok (q / 100)) (pySplit o ',')
          Except.ok (some fs)
    main pid opts.input (xs.zip ys) opts.output opts.axes opts.slice_line opts.units
      offset maps reg profileOf

/-! ## Concrete instances used by witnesses and counterexamples -/

/-- A placeholder command, used only as the getD default when indexing a
trace. -/
def noCmd : Cmd := ⟨"", [], none⟩

/-- Two layers whose profiles have different lengths (2 and 3 lines). -/
def c2pf : String → List (List String) := fun m =>
  if m = "a" then [["0", "1"], ["1", "2"]] else [["0", "4"], ["1", "5"], ["2", "6"]]

/-- Two layers with equal profile lengths. -/
def w2pf : String → List (List String) := fun _ => [["0", "1"], ["1", "2"]]

/-- A region with unit resolutions, top 100 and bottom 0. -/
def w3reg : Region := ⟨1, 1, 1, 100, 0⟩

/-- A one line profile for every map. -/
def w3pf : String → List (List String) := fun _ => [["0.000000", "7"]]

/-- A run whose two points arrive east point first: (2,0) then (1,5). -/
def w3run : Except PyError (List Cmd) :=
  main 11 "vol" [((2 : ℚ), (0 : ℚ)), ((1 : ℚ), (5 : ℚ))] "out" "" "" "" none
    ["m1"] w3reg w3pf

/-- The trace of that run. -/
def w3trace : List Cmd := w3run.toOption.getD []

def c8reg : Region := ⟨1, 1, 1, 100, 0⟩

def c8pf : String → List (List String) := fun _ =>
  [["0.000000", "1"], ["1.000000", "2"]]

/-- A plain successful run with no optional outputs. -/
def c8run : Except PyError (List Cmd) :=
  main 7 "vol" [((0 : ℚ), (0 : ℚ)), ((3 : ℚ), (0 : ℚ))] "outc" "" "" "" none
    ["m1"] c8reg c8pf

def c8trace : List Cmd := c8run.toOption.getD []

def w8reg : Region := ⟨1, 1, 1, 100, 0⟩

def w8pf : String → List (List String) := fun _ => [["0.000000", "3"]]

def w8run : Except PyError (List Cmd) :=
  main 12 "vol8" [((0 : ℚ), (0 : ℚ)), ((3 : ℚ), (0 : ℚ))] "out8" "" "" "" none
    ["t1"] w8reg w8pf

def w8trace : List Cmd := w8run.toOption.getD []

def c9reg : Region := ⟨1, 1, 1, 100, 0⟩

def c9pf : String → List (List String) := fun _ => [["0.000000", "7"]]

/-- A run requesting the slice_line output, with the two points supplied
east point first: (2,0) then (1,5). -/
def c9run : Except PyError (List Cmd) :=
  main 3 "vol" [((2 : ℚ), (0 : ℚ)), ((1 : ℚ), (5 : ℚ))] "out" "" "sl" "" none
    ["m1"] c9reg c9pf

def c9trace : List Cmd := c9run.toOption.getD []

/-- The v.in.ascii command of that run (the slice line emission). -/
def c9slice : Cmd :=
  (c9trace.filter (fun c => c.prog == "v.in.ascii")).getD 0 noCmd

/-- The options of a driver invocation with a three component coordinates
string. -/
def opts5 : Options := ⟨"vol", "out", "", "", "", "1,2,3", ""⟩

/-! ## Helper lemmas -/

theorem okBind {α β : Type} (a : α) (f : α → Except PyError β) :
    (Except.ok a >>= f) = f a := rfl

theorem errorBind {α β : Type} (e : PyError) (f : α → Except PyError β) :
    ((Except.error e : Except PyError α) >>= f) = Except.error e := rfl

theorem length_four_cases {α : Type} {l : List α} (h : l.length = 4) :
    ∃ a b c d, l = [a, b, c, d] := by
  match l with
  | [a, b, c, d] => exact ⟨a, b, c, d, rfl⟩
  | [] | [_] | [_, _] | [_, _, _] => simp at h
  | _ :: _ :: _ :: _ :: _ :: _ =>
      simp only [List.length_cons] at h
      omega

theorem exceptBind_ok {α β : Type} (x : Except PyError α) (f : α → Except PyError β) (b : β) :
    (x >>= f) = Except.ok b ↔ ∃ a, x = Except.ok a ∧ f a = Except.ok b := by
  cases x with
  | error e =>
      show Except.error e = Except.ok b ↔ _
      simp
  | ok a =>
      show f a = Except.ok b ↔ _
      simp

theorem mapE_ok_forall₂ {α β : Type} {f : α → Except PyError β} :
    ∀ {l : List α} {bs : List β}, mapE f l = Except.ok bs →
      List.Forall₂ (fun a b => f a = Except.ok b) l bs := by
  intro l
  induction l with
  | nil =>
      intro bs h
      simp only [mapE, Except.ok.injEq] at h
      subst h
      exact List.Forall₂.nil
  | cons a as ih =>
      intro bs h
      simp only [mapE, exceptBind_ok, Except.ok.injEq] at h
      obtain ⟨b, hb, bs2, hbs2, hcons⟩ := h
      subst hcons
      exact List.Forall₂.cons hb (ih hbs2)

theorem mapE_ok_length {α β : Type} {f : α → Except PyError β} {l : List α} {bs : List β}
    (h : mapE f l = Except.ok bs) : bs.length = l.length :=
  (mapE_ok_forall₂ h).length_eq.symm

theorem forall₂_mem_right {α β : Type} {R : α → β → Prop} :
    ∀ {l1 : List α} {l2 : List β}, List.Forall₂ R l1 l2 → ∀ b ∈ l2, ∃ a ∈ l1, R a b := by
  intro l1 l2 h
  induction h with
  | nil => simp
  | cons hr _ ih =>
      intro b hb
      rcases List.mem_cons.mp hb with rfl | hb2
      · exact ⟨_, List.mem_cons_self _ _, hr⟩
      · obtain ⟨a, ha, har⟩ := ih b hb2
        exact ⟨a, List.mem_cons_of_mem _ ha, har⟩

theorem pyFloat_ok_or_valueError (s : String) :
    (∃ q, pyFloat s = Except.ok q) ∨ pyFloat s = Except.error PyError.valueError := by
  unfold pyFloat
  rcases pyFloatCore s.toList with _ | q
  · exact Or.inr rfl
  · exact Or.inl ⟨q, rfl⟩

/-- Inversion of a successful main run into its constituent results and
its command trace shape. -/
theorem main_ok_parts {pid : ℕ} {input_ : String} {cs : List (ℚ × ℚ)}
    {output axesName slice_line units : String} {offset : Option (List ℚ)}
    {maps : List String} {reg : Region} {pf : String → List (List String)}
    {t : List Cmd}
    (h : main pid input_ cs output axesName slice_line units offset maps reg pf =
      Except.ok t) :
    ∃ ncs m0 ext trows sc ac,
      normalizeCoordinates cs = Except.ok ncs ∧
      pyGet maps 0 = Except.ok m0 ∧
      applyOffsetOpt (baseExtent (pf m0).length maps.length reg) offset = Except.ok ext ∧
      payloadTokenRows maps pf = Except.ok trows ∧
      sliceBlock ncs slice_line = Except.ok sc ∧
      axesBlock axesName ext reg.t reg.b units = Except.ok ac ∧
      t = pipelineCmds pid input_ output ncs maps m0
            (String.intercalate "\n"
              (asciiHeader ext maps.length (pf m0).length ::
                trows.map (fun r => String.intercalate " " r))) ++ sc ++ ac := by
  simp only [main, exceptBind_ok, Except.ok.injEq] at h
  obtain ⟨ncs, h1, m0, h2, ext, h3, trows, h4, sc, h5, ac, h6, h7⟩ := h
  exact ⟨ncs, m0, ext, trows, sc, ac, h1, h2, h3, h4, h5, h6, h7.symm⟩

/-- Every r.profile command of the unconditional pipeline carries the
normalized coordinates and no resolution option. -/
theorem pipeline_rprofile_args {pid : ℕ} {input_ output m0 payload : String}
    {ncs : List (ℚ × ℚ)} {maps : List String} {c : Cmd}
    (hc : c ∈ pipelineCmds pid input_ output ncs maps m0 payload)
    (hp : c.prog = "r.profile") :
    ("coordinates", coordsArg ncs) ∈ c.args ∧
    c.args.lookup "res" = none ∧ c.args.lookup "resolution" = none := by
  simp only [pipelineCmds, glistCmd, List.append_assoc, List.mem_append, List.mem_cons,
    List.mem_singleton, List.mem_map, List.not_mem_nil, or_false] at hc
  rcases hc with (rfl | rfl | rfl) | ⟨m, _, rfl⟩ | (rfl | rfl)
  · exact absurd hp (by simp)
  · exact absurd hp (by simp)
  · exact ⟨by simp [rprofileCmd], rfl, rfl⟩
  · exact ⟨by simp [rprofileCmd], rfl, rfl⟩
  · exact absurd hp (by simp)
  · exact absurd hp (by simp)

/-- The slice line block emits v.in.ascii commands only. -/
theorem sliceBlock_prog {ncs : List (ℚ × ℚ)} {sl : String} {sc : List Cmd}
    (h : sliceBlock ncs sl = Except.ok sc) :
    ∀ c ∈ sc, c.prog = "v.in.ascii" := by
  unfold sliceBlock at h
  split at h
  · simp only [Except.ok.injEq] at h
    subst h
    simp
  · simp only [exceptBind_ok, Except.ok.injEq] at h
    obtain ⟨p0, _, p1, _, h2⟩ := h
    subst h2
    intro c hc
    simp only [List.mem_singleton] at hc
    subst hc
    rfl

/-- The axes block emits v.in.ascii, v.db.addtable and db.execute
commands only. -/
theorem axesBlock_prog {an : String} {ext : Extent} {t b : ℚ} {units : String}
    {ac : List Cmd} (h : axesBlock an ext t b units = Except.ok ac) :
    ∀ c ∈ ac, c.prog = "v.in.ascii" ∨ c.prog = "v.db.addtable" ∨ c.prog = "db.execute" := by
  simp only [axesBlock] at h
  split at h
  · simp only [Except.ok.injEq] at h
    subst h
    simp
  · simp only [exceptBind_ok, Except.ok.injEq] at h
    obtain ⟨u1, _, u2, _, h2⟩ := h
    subst h2
    intro c hc
    simp only [List.mem_cons, List.not_mem_nil, or_false] at hc
    rcases hc with rfl | rfl | rfl
    · exact Or.inl rfl
    · exact Or.inr (Or.inl rfl)
    · exact Or.inr (Or.inr rfl)

/-! ## Claim theorems -/

/-- C1: for a run with a first profile of cols sampled lines and rows
discovered layers, the grid extent before any offset satisfies
south = west = 0, east - west = cols * res with
res = (ewres + nsres) / 2, and north - south = rows * tbres. -/
theorem grid_base_extent_invariant (cols rows : ℕ) (reg : Region) :
    (baseExtent cols rows reg).s = 0 ∧ (baseExtent cols rows reg).w = 0 ∧
    (baseExtent cols rows reg).e - (baseExtent cols rows reg).w =
      (cols : ℚ) * ((reg.ewres + reg.nsres) / 2) ∧
    (baseExtent cols rows reg).n - (baseExtent cols rows reg).s =
      (rows : ℚ) * reg.tbres := by
  refine ⟨rfl, rfl, ?_, ?_⟩ <;> simp [baseExtent, regionRes]

/-- C4: with south = west = 0, applying the offset fractions (fx, fy)
translates all four bounds by dx = (e - w) * fx and dy = (n - s) * fy and
preserves the width and the height of the extent. -/
theorem offset_translation (ext : Extent) (fx fy : ℚ)
    (hs : ext.s = 0) (hw : ext.w = 0) :
    applyOffset ext fx fy =
      ⟨ext.n + (ext.n - ext.s) * fy, ext.s + (ext.n - ext.s) * fy,
       ext.e + (ext.e - ext.w) * fx, ext.w + (ext.e - ext.w) * fx⟩ ∧
    (applyOffset ext fx fy).e - (applyOffset ext fx fy).w = ext.e - ext.w ∧
    (applyOffset ext fx fy).n - (applyOffset ext fx fy).s = ext.n - ext.s := by
  refine ⟨?_, ?_, ?_⟩
  · simp only [applyOffset, hs, hw]
    congr 1 <;> ring
  · simp only [applyOffset]
    ring
  · simp only [applyOffset]
    ring

/-- Witness for C4 at the concrete extent (3, 0, 5, 0) with fractions
fx = 1/2, fy = 1/4. -/
theorem offset_translation_witness :
    ((⟨3, 0, 5, 0⟩ : Extent).s = 0) ∧ ((⟨3, 0, 5, 0⟩ : Extent).w = 0) ∧
    (applyOffset ⟨3, 0, 5, 0⟩ (1 / 2) (1 / 4) =
        ⟨(3 : ℚ) + ((3 : ℚ) - 0) * (1 / 4), (0 : ℚ) + ((3 : ℚ) - 0) * (1 / 4),
         (5 : ℚ) + ((5 : ℚ) - 0) * (1 / 2), (0 : ℚ) + ((5 : ℚ) - 0) * (1 / 2)⟩ ∧
      (applyOffset ⟨3, 0, 5, 0⟩ (1 / 2) (1 / 4)).e -
          (applyOffset ⟨3, 0, 5, 0⟩ (1 / 2) (1 / 4)).w = (5 : ℚ) - 0 ∧
      (applyOffset ⟨3, 0, 5, 0⟩ (1 / 2) (1 / 4)).n -
          (applyOffset ⟨3, 0, 5, 0⟩ (1 / 2) (1 / 4)).s = (3 : ℚ) - 0) :=
  ⟨rfl, rfl, offset_translation ⟨3, 0, 5, 0⟩ (1 / 2) (1 / 4) rfl rfl⟩

/-- C6 counterexample: at the claimed scenario (top 100, bottom 0, units
m and ft, width 50) the script renders top and bottom as floats, so the
cat 2 and cat 3 labels are "100.0 ft" and "0.0 ft", not "100 ft" and
"0 ft" as the claim states. -/
theorem axes_labels_scenario_cex :
    axesSql "ax" 50 0 100 0 "m" "ft" =
      "UPDATE ax SET label = \"50 m\" WHERE cat = 1;\n" ++
      "UPDATE ax SET label = \"100.0 ft\" WHERE cat = 2;\n" ++
      "UPDATE ax SET label = \"0.0 ft\" WHERE cat = 3;\n" ∧
    axesSql "ax" 50 0 100 0 "m" "ft" ≠
      "UPDATE ax SET label = \"50 m\" WHERE cat = 1;\n" ++
      "UPDATE ax SET label = \"100 ft\" WHERE cat = 2;\n" ++
      "UPDATE ax SET label = \"0 ft\" WHERE cat = 3;\n" := by
  have h50 : ((50 : ℚ) - 0) = 50 := by norm_num
  constructor
  · simp only [axesSql, h50]
    rfl
  · simp only [axesSql, h50]
    decide

/-- C6 (amended): the axes block issues exactly three commands (v.in.ascii,
v.db.addtable, db.execute) and the SQL updates three labels keyed by cat;
only the horizontal length is integer truncated, top and bottom are
rendered as the float values of the region, so the scenario labels are
"50 m" (cat 1), "100.0 ft" (cat 2) and "0.0 ft" (cat 3). -/
theorem axes_labels_amended (n s : ℚ) :
    axesBlock "ax" ⟨n, s, 50, 0⟩ 100 0 "m,ft" =
      Except.ok
        [⟨"v.in.ascii",
          [("format", "standard"), ("input", "-"), ("flags", "n"), ("output", "ax")],
          some (axesPayload n s 50 0)⟩,
         ⟨"v.db.addtable",
          [("map", "ax"), ("layer", "1"), ("columns", "label varchar(50)")], none⟩,
         ⟨"db.execute", [("input", "-")],
          some (axesSql "ax" 50 0 100 0 "m" "ft")⟩] ∧
    axesSql "ax" 50 0 100 0 "m" "ft" =
      "UPDATE ax SET label = \"50 m\" WHERE cat = 1;\n" ++
      "UPDATE ax SET label = \"100.0 ft\" WHERE cat = 2;\n" ++
      "UPDATE ax SET label = \"0.0 ft\" WHERE cat = 3;\n" := by
  constructor
  · rfl
  · have h50 : ((50 : ℚ) - 0) = 50 := by norm_num
    simp only [axesSql, h50]
    rfl

/-- C7 counterexample: with a non-empty units option of a single
comma-separated part ("m"), the axes block aborts with an uncaught
IndexError instead of silently defaulting both units to empty strings; a
missing units option does default to empty strings. -/
theorem units_malformed_cex :
    axesBlock "ax" ⟨30, 0, 50, 0⟩ 100 0 "m" = Except.error PyError.indexError ∧
    axesBlock "ax" ⟨30, 0, 50, 0⟩ 100 0 "" =
      Except.ok
        [⟨"v.in.ascii",
          [("format", "standard"), ("input", "-"), ("flags", "n"), ("output", "ax")],
          some (axesPayload 30 0 50 0)⟩,
         ⟨"v.db.addtable",
          [("map", "ax"), ("layer", "1"), ("columns", "label varchar(50)")], none⟩,
         ⟨"db.execute", [("input", "-")], some (axesSql "ax" 50 0 100 0 "" "")⟩] := by
  constructor
  · rfl
  · rfl

/-- C7 (amended): a missing units option silently gives empty strings for
both axis units; a non-empty units option with fewer than two comma
separated parts raises an uncaught IndexError at units[1], aborting the
run. -/
theorem units_handling_amended (an : String) (ext : Extent) (t b : ℚ)
    (han : an ≠ "") :
    axesBlock an ext t b "" =
      Except.ok
        [⟨"v.in.ascii",
          [("format", "standard"), ("input", "-"), ("flags", "n"), ("output", an)],
          some (axesPayload ext.n ext.s ext.e ext.w)⟩,
         ⟨"v.db.addtable",
          [("map", an), ("layer", "1"), ("columns", "label varchar(50)")], none⟩,
         ⟨"db.execute", [("input", "-")],
          some (axesSql an ext.e ext.w t b "" "")⟩] ∧
    ∀ u : String, u ≠ "" → (pySplit u ',').length = 1 →
      axesBlock an ext t b u = Except.error PyError.indexError := by
  constructor
  · simp only [axesBlock, if_neg han]
    rfl
  · intro u hu h1
    obtain ⟨p, hp⟩ := List.length_eq_one.mp h1
    simp only [axesBlock, if_neg han, if_neg hu, hp]
    rfl

/-- Witness for C7 (amended) at the axes name "ax" and the malformed
units value "m". -/
theorem units_handling_amended_witness :
    ("ax" ≠ "") ∧
    axesBlock "ax" ⟨30, 0, 50, 0⟩ 100 0 "m" = Except.error PyError.indexError :=
  ⟨by decide,
   (units_handling_amended "ax" ⟨30, 0, 50, 0⟩ 100 0 (by decide)).2 "m" (by decide) rfl⟩

/-- C10: the locally rebuilt temporary name stem of main equals the module
level PREFIX, the cleanup hook and the layer listing both use the pattern
PREFIX*, and every raster name starting with the local stem matches that
pattern stem. -/
theorem tmp_name_patterns_agree (pid : ℕ) (name : String)
    (h : startsWith (mainPREFIX pid) name = true) :
    mainPREFIX pid = PREFIX pid ∧
    (cleanupCmd pid).args.lookup "pattern" = some (PREFIX pid ++ "*") ∧
    (glistCmd pid).args.lookup "pattern" = some (PREFIX pid ++ "*") ∧
    startsWith (PREFIX pid) name = true :=
  ⟨rfl, rfl, rfl, h⟩

/-- Witness for C10 at pid 42 and a typical temporary layer name. -/
theorem tmp_name_patterns_agree_witness :
    (startsWith (mainPREFIX 42) "r3_to_rast_tmp_42_001" = true) ∧
    (mainPREFIX 42 = PREFIX 42 ∧
     (cleanupCmd 42).args.lookup "pattern" = some (PREFIX 42 ++ "*") ∧
     (glistCmd 42).args.lookup "pattern" = some (PREFIX 42 ++ "*") ∧
     startsWith (PREFIX 42) "r3_to_rast_tmp_42_001" = true) :=
  ⟨by decide, tmp_name_patterns_agree 42 "r3_to_rast_tmp_42_001" (by decide)⟩

/-- C2 counterexample: the payload does have one row per layer, but a row
holds as many tokens as that layer's own profile has lines; with a second
layer whose profile has 3 lines against a first layer of 2, the reversed
first payload row has 3 tokens while the header cols field is 2. -/
theorem payload_token_count_mismatch_cex :
    payloadTokenRows ["a", "b"] c2pf = Except.ok [["4", "5", "6"], ["1", "2"]] ∧
    (c2pf "a").length = 2 ∧
    ([["4", "5", "6"], ["1", "2"]] : List (List String)).length = 2 ∧
    (([["4", "5", "6"], ["1", "2"]] : List (List String)).getD 0 []).length = 3 :=
  ⟨rfl, rfl, rfl, rfl⟩

/-- C2 (amended): when the payload assembly succeeds it holds exactly one
value row per discovered layer, and each row holds exactly as many tokens
as that layer's own profile has lines; when all layers' profiles share one
length (as the script assumes but never checks), every row therefore has
that many tokens. -/
theorem payload_rows_structure (maps : List String)
    (pf : String → List (List String)) (trows : List (List String))
    (h : payloadTokenRows maps pf = Except.ok trows) :
    trows.length = maps.length ∧
    List.Forall₂ (fun m row => row.length = (pf m).length) maps.reverse trows ∧
    ∀ C : ℕ, (∀ m ∈ maps, (pf m).length = C) → ∀ row ∈ trows, row.length = C := by
  have h0 : mapE (fun m => profileTokens (pf m)) maps.reverse = Except.ok trows := h
  have h2 := mapE_ok_forall₂ h0
  have hf : List.Forall₂ (fun m row => row.length = (pf m).length) maps.reverse trows := by
    refine h2.imp ?_
    intro m row hrow
    exact mapE_ok_length
      (show mapE (fun line => pyGet line 1) (pf m) = Except.ok row from hrow)
  refine ⟨?_, hf, ?_⟩
  · have hlen := h2.length_eq
    rw [List.length_reverse] at hlen
    exact hlen.symm
  · intro C hC row hrow
    obtain ⟨m, hm, hlen⟩ := forall₂_mem_right hf row hrow
    rw [hlen]
    exact hC m (List.mem_reverse.mp hm)

/-- Witness for C2 (amended): a two layer run with equal profile lengths. -/
theorem payload_rows_structure_witness :
    (payloadTokenRows ["a", "b"] w2pf = Except.ok [["1", "2"], ["1", "2"]]) ∧
    (([["1", "2"], ["1", "2"]] : List (List String)).length =
        (["a", "b"] : List String).length ∧
     List.Forall₂ (fun m row => row.length = (w2pf m).length)
       (["a", "b"] : List String).reverse [["1", "2"], ["1", "2"]] ∧
     ∀ C : ℕ, (∀ m ∈ (["a", "b"] : List String), (w2pf m).length = C) →
       ∀ row ∈ ([["1", "2"], ["1", "2"]] : List (List String)), row.length = C) :=
  ⟨rfl, payload_rows_structure ["a", "b"] w2pf [["1", "2"], ["1", "2"]] rfl⟩

/-- C3: a run on two supplied points uses, for every r.profile invocation,
the pair normalized so that the point with the smaller x comes first,
whichever order the two points were supplied in. -/
theorem profiling_westmost_first (x1 y1 x2 y2 : ℚ) (pid : ℕ)
    (input_ output axesName slice_line units : String) (offset : Option (List ℚ))
    (maps : List String) (reg : Region) (pf : String → List (List String))
    (t : List Cmd)
    (h : main pid input_ [(x1, y1), (x2, y2)] output axesName slice_line units offset
          maps reg pf = Except.ok t) :
    ∃ p q : ℚ × ℚ,
      normalizeCoordinates [(x1, y1), (x2, y2)] = Except.ok [p, q] ∧
      p.1 ≤ q.1 ∧
      ((p, q) = ((x1, y1), (x2, y2)) ∨ (p, q) = ((x2, y2), (x1, y1))) ∧
      ∀ c ∈ t, c.prog = "r.profile" → ("coordinates", coordsArg [p, q]) ∈ c.args := by
  obtain ⟨ncs, m0, ext, trows, sc, ac, h1, h2, h3, h4, h5, h6, h7⟩ := main_ok_parts h
  have hnorm : normalizeCoordinates [(x1, y1), (x2, y2)] =
      Except.ok (if x1 > x2 then [(x2, y2), (x1, y1)] else [(x1, y1), (x2, y2)]) := rfl
  have hncs : ncs = if x1 > x2 then [(x2, y2), (x1, y1)] else [(x1, y1), (x2, y2)] :=
    (Except.ok.inj (hnorm.symm.trans h1)).symm
  have hmem : ∀ c ∈ t, c.prog = "r.profile" →
      ("coordinates", coordsArg ncs) ∈ c.args := by
    intro c hc hprog
    rw [h7] at hc
    rcases List.mem_append.mp hc with hc2 | hc2
    · rcases List.mem_append.mp hc2 with hc3 | hc3
      · exact (pipeline_rprofile_args hc3 hprog).1
      · have hv := sliceBlock_prog h5 c hc3
        exact absurd (hv.symm.trans hprog) (by decide)
    · rcases axesBlock_prog h6 c hc2 with hv | hv | hv <;>
        exact absurd (hv.symm.trans hprog) (by decide)
  by_cases hgt : x1 > x2
  · refine ⟨(x2, y2), (x1, y1), ?_, le_of_lt hgt, Or.inr rfl, ?_⟩
    · rw [hnorm, if_pos hgt]
    · have : ncs = [(x2, y2), (x1, y1)] := by rw [hncs, if_pos hgt]
      rw [← this]
      exact hmem
  · refine ⟨(x1, y1), (x2, y2), ?_, not_lt.mp hgt, Or.inl rfl, ?_⟩
    · rw [hnorm, if_neg hgt]
    · have : ncs = [(x1, y1), (x2, y2)] := by rw [hncs, if_neg hgt]
      rw [← this]
      exact hmem

/-- Witness for C3: a concrete successful run whose points are supplied
east point first. -/
theorem profiling_westmost_first_witness :
    (w3run = Except.ok w3trace) ∧
    (∃ p q : ℚ × ℚ,
      normalizeCoordinates [((2 : ℚ), (0 : ℚ)), ((1 : ℚ), (5 : ℚ))] =
        Except.ok [p, q] ∧
      p.1 ≤ q.1 ∧
      ((p, q) = (((2 : ℚ), (0 : ℚ)), ((1 : ℚ), (5 : ℚ))) ∨
        (p, q) = (((1 : ℚ), (5 : ℚ)), ((2 : ℚ), (0 : ℚ)))) ∧
      ∀ c ∈ w3trace, c.prog = "r.profile" →
        ("coordinates", coordsArg [p, q]) ∈ c.args) :=
  ⟨rfl,
   profiling_westmost_first 2 0 1 5 11 "vol" "out" "" "" "" none ["m1"]
     w3reg w3pf w3trace rfl⟩

/-- C5: when the coordinates option does not split into exactly 4
components that all parse as numbers, the driver aborts with gcore.fatal
(count not 4) or an uncaught ValueError (a non numeric component), and the
outcome is the same for every external environment: no pipeline command is
ever invoked. -/
theorem bad_coordinates_fatal (opts : Options)
    (h : (pySplit (pyStripComma opts.coordinates) ',').length ≠ 4 ∨
         ∃ comp ∈ pySplit (pyStripComma opts.coordinates) ',',
           pyFloat comp = Except.error PyError.valueError) :
    ∃ err : PyError,
      (err = PyError.fatal "Please provide 2 coordinates." ∨
        err = PyError.valueError) ∧
      ∀ (pid : ℕ) (maps : List String) (reg : Region)
        (pf : String → List (List String)),
        driver pid opts maps reg pf = Except.error err := by
  by_cases hl : (pySplit (pyStripComma opts.coordinates) ',').length = 4
  · rcases h with hl' | ⟨comp, hcm, hbad⟩
    · exact absurd hl hl'
    obtain ⟨a, b, c, d, hcomps⟩ := length_four_cases hl
    rw [hcomps] at hcm
    refine ⟨PyError.valueError, Or.inr rfl, ?_⟩
    intro pid maps reg pf
    rcases pyFloat_ok_or_valueError a with ⟨qa, ha⟩ | ha
    · rcases pyFloat_ok_or_valueError c with ⟨qc, hc2⟩ | hc2
      · rcases pyFloat_ok_or_valueError b with ⟨qb, hb2⟩ | hb2
        · rcases pyFloat_ok_or_valueError d with ⟨qd, hd2⟩ | hd2
          · exfalso
            simp only [List.mem_cons, List.not_mem_nil, or_false] at hcm
            rcases hcm with rfl | rfl | rfl | rfl
            · rw [ha] at hbad; exact Except.noConfusion hbad
            · rw [hb2] at hbad; exact Except.noConfusion hbad
            · rw [hc2] at hbad; exact Except.noConfusion hbad
            · rw [hd2] at hbad; exact Except.noConfusion hbad
          · simp only [driver, hcomps]
            rw [if_neg (by simp)]
            simp only [everyOther, List.tail_cons, mapE, ha, hc2, hb2, hd2,
              okBind, errorBind]
        · simp only [driver, hcomps]
          rw [if_neg (by simp)]
          simp only [everyOther, List.tail_cons, mapE, ha, hc2, hb2,
            okBind, errorBind]
      · simp only [driver, hcomps]
        rw [if_neg (by simp)]
        simp only [everyOther, List.tail_cons, mapE, ha, hc2, okBind, errorBind]
    · simp only [driver, hcomps]
      rw [if_neg (by simp)]
      simp only [everyOther, List.tail_cons, mapE, ha, okBind, errorBind]
  · refine ⟨PyError.fatal "Please provide 2 coordinates.", Or.inl rfl, ?_⟩
    intro pid maps reg pf
    simp only [driver]
    rw [if_pos hl]

/-- Witness for C5: the three component coordinates string "1,2,3". -/
theorem bad_coordinates_fatal_witness :
    ((pySplit (pyStripComma "1,2,3") ',').length ≠ 4 ∨
      ∃ comp ∈ pySplit (pyStripComma "1,2,3") ',',
        pyFloat comp = Except.error PyError.valueError) ∧
    (∃ err : PyError,
      (err = PyError.fatal "Please provide 2 coordinates." ∨
        err = PyError.valueError) ∧
      ∀ (pid : ℕ) (maps : List String) (reg : Region)
        (pf : String → List (List String)),
        driver pid opts5 maps reg pf = Except.error err) :=
  ⟨Or.inl (by decide), bad_coordinates_fatal opts5 (Or.inl (by decide))⟩

/-- C8 counterexample: in a concrete successful run, the first r.profile
invocation carries only the coordinates, input and output options; no
resolution option of any spelling is passed, although the computed res of
the region is 1.  The claim that profiling is invoked with the resolution
(ewres + nsres) / 2 is false: no resolution is passed at all. -/
theorem profile_no_resolution_cex :
    c8run = Except.ok c8trace ∧
    (c8trace.getD 2 noCmd).prog = "r.profile" ∧
    (c8trace.getD 2 noCmd).args.map Prod.fst = ["coordinates", "input", "output"] ∧
    (c8trace.getD 2 noCmd).args.lookup "res" = none ∧
    (c8trace.getD 2 noCmd).args.lookup "resolution" = none ∧
    regionRes c8reg = 1 := by
  refine ⟨rfl, rfl, rfl, rfl, rfl, ?_⟩
  norm_num [regionRes, c8reg]

/-- C8 (amended): the script computes res = (ewres + nsres) / 2 and uses
it only to size the horizontal extent (east = cols * res); every r.profile
invocation of a run passes no resolution option, leaving the sampling step
to the external profiler's default. -/
theorem profile_resolution_amended (pid : ℕ) (input_ : String)
    (cs : List (ℚ × ℚ)) (output axesName slice_line units : String)
    (offset : Option (List ℚ)) (maps : List String) (reg : Region)
    (pf : String → List (List String)) (t : List Cmd)
    (h : main pid input_ cs output axesName slice_line units offset maps reg pf =
      Except.ok t) :
    regionRes reg = (reg.ewres + reg.nsres) / 2 ∧
    (∀ cols rows : ℕ, (baseExtent cols rows reg).e = (cols : ℚ) * regionRes reg) ∧
    ∀ c ∈ t, c.prog = "r.profile" →
      c.args.lookup "res" = none ∧ c.args.lookup "resolution" = none := by
  obtain ⟨ncs, m0, ext, trows, sc, ac, h1, h2, h3, h4, h5, h6, h7⟩ := main_ok_parts h
  refine ⟨rfl, fun cols rows => rfl, ?_⟩
  intro c hc hprog
  rw [h7] at hc
  rcases List.mem_append.mp hc with hc2 | hc2
  · rcases List.mem_append.mp hc2 with hc3 | hc3
    · exact (pipeline_rprofile_args hc3 hprog).2
    · have hv := sliceBlock_prog h5 c hc3
      exact absurd (hv.symm.trans hprog) (by decide)
  · rcases axesBlock_prog h6 c hc2 with hv | hv | hv <;>
      exact absurd (hv.symm.trans hprog) (by decide)

/-- Witness for C8 (amended): a concrete successful run. -/
theorem profile_resolution_amended_witness :
    (w8run = Except.ok w8trace) ∧
    (regionRes w8reg = (w8reg.ewres + w8reg.nsres) / 2 ∧
     (∀ cols rows : ℕ,
        (baseExtent cols rows w8reg).e = (cols : ℚ) * regionRes w8reg) ∧
     ∀ c ∈ w8trace, c.prog = "r.profile" →
       c.args.lookup "res" = none ∧ c.args.lookup "resolution" = none) :=
  ⟨rfl,
   profile_resolution_amended 12 "vol8" [((0 : ℚ), (0 : ℚ)), ((3 : ℚ), (0 : ℚ))]
     "out8" "" "" "" none ["t1"] w8reg w8pf w8trace rfl⟩

/-- C9 counterexample: with the two points supplied as (2,0) then (1,5),
the emitted slice line vertices are the normalized pair (1,5), (2,0) — not
the originally supplied order, contradicting the claim that the vertices
appear in the order the points were supplied. -/
theorem slice_line_order_cex :
    c9run = Except.ok c9trace ∧
    c9slice.prog = "v.in.ascii" ∧
    c9slice.stdin = some (sliceLinePayload ((1 : ℚ), (5 : ℚ)) ((2 : ℚ), (0 : ℚ))) ∧
    sliceLinePayload ((1 : ℚ), (5 : ℚ)) ((2 : ℚ), (0 : ℚ)) =
      "L 2 1\n1.0 5.0\n2.0 0.0\n1 1" ∧
    sliceLinePayload ((2 : ℚ), (0 : ℚ)) ((1 : ℚ), (5 : ℚ)) =
      "L 2 1\n2.0 0.0\n1.0 5.0\n1 1" ∧
    c9slice.stdin ≠ some (sliceLinePayload ((2 : ℚ), (0 : ℚ)) ((1 : ℚ), (5 : ℚ))) := by
  refine ⟨rfl, rfl, rfl, rfl, rfl, ?_⟩
  decide

/-- C9 (amended): when a slice_line output is requested, the emitted
vector is a single two vertex line with the single category 1 whose
vertices are the two supplied points after west first normalization, so
possibly swapped relative to the supplied order. -/
theorem slice_line_amended (x1 y1 x2 y2 : ℚ) (name : String) (hname : name ≠ "") :
    ∃ p q : ℚ × ℚ,
      normalizeCoordinates [(x1, y1), (x2, y2)] = Except.ok [p, q] ∧
      p.1 ≤ q.1 ∧
      ((p, q) = ((x1, y1), (x2, y2)) ∨ (p, q) = ((x2, y2), (x1, y1))) ∧
      sliceBlock [p, q] name =
        Except.ok [⟨"v.in.ascii",
          [("format", "standard"), ("input", "-"), ("flags", "n"), ("output", name)],
          some (sliceLinePayload p q)⟩] := by
  have hnorm : normalizeCoordinates [(x1, y1), (x2, y2)] =
      Except.ok (if x1 > x2 then [(x2, y2), (x1, y1)] else [(x1, y1), (x2, y2)]) := rfl
  by_cases hgt : x1 > x2
  · refine ⟨(x2, y2), (x1, y1), ?_, le_of_lt hgt, Or.inr rfl, ?_⟩
    · rw [hnorm, if_pos hgt]
    · simp only [sliceBlock, if_neg hname]
      rfl
  · refine ⟨(x1, y1), (x2, y2), ?_, not_lt.mp hgt, Or.inl rfl, ?_⟩
    · rw [hnorm, if_neg hgt]
    · simp only [sliceBlock, if_neg hname]
      rfl

/-- Witness for C9 (amended): the output name "sl" with the points
supplied east point first. -/
theorem slice_line_amended_witness :
    (("sl" : String) ≠ "") ∧
    (∃ p q : ℚ × ℚ,
      normalizeCoordinates [((2 : ℚ), (0 : ℚ)), ((1 : ℚ), (5 : ℚ))] =
        Except.ok [p, q] ∧
      p.1 ≤ q.1 ∧
      ((p, q) = (((2 : ℚ), (0 : ℚ)), ((1 : ℚ), (5 : ℚ))) ∨
        (p, q) = (((1 : ℚ), (5 : ℚ)), ((2 : ℚ), (0 : ℚ)))) ∧
      sliceBlock [p, q] "sl" =
        Except.ok [⟨"v.in.ascii",
          [("format", "standard"), ("input", "-"), ("flags", "n"), ("output", "sl")],
          some (sliceLinePayload p q)⟩]) :=
  ⟨by decide, slice_line_amended 2 0 1 5 "sl" (by decide)⟩

end R3Slice
